import Mathlib

/-!
Verification of the resource-reconciliation logic of the cosmo terraform
provider: the federated-graph resource lifecycle
(internal/service/federated-graph/resource_cosmo_federated_graph.go),
the monograph data source
(internal/service/monograph/data_source_cosmo_monograph.go) and the token
API client (internal/api/token.go), as a shallow embedding.

The remote control plane and the host orchestrator are modelled as oracles
(function-valued parameters); each lifecycle operation is a pure function
from the current tracked state and the oracle to an operation result that
records the response state, the diagnostics emitted, the remote calls
issued (in order) and whether a nil pointer would have been dereferenced.
-/

/-- A terraform framework string value (types.String): null or a known
string. IsNull and ValueString follow the framework semantics: ValueString
of a null value is the empty string, ValueStringPointer of a null value is
nil. -/
inductive TFString
  | nullV
  | strV (s : String)
deriving DecidableEq, Repr

def TFString.IsNull : TFString → Bool
  | .nullV => true
  | .strV _ => false

def TFString.ValueString : TFString → String
  | .nullV => ""
  | .strV s => s

def TFString.ValueStringPointer : TFString → Option String
  | .nullV => none
  | .strV s => some s

/-- Status codes of the remote API (common.EnumStatusCode); only the codes
the reconciler logic distinguishes are modelled. -/
inductive EnumStatusCode
  | OK
  | ERR
  | ERR_NOT_FOUND
  | ERR_SUBGRAPH_COMPOSITION_FAILED
deriving DecidableEq, Repr

/-- Modelled from the spec: the api.ApiError type (internal/api is not
under src/). Spec 3: a tagged outcome carrying the underlying cause, a
reason tag and a remote status code. The field shape matches the literal
built in createFederatedGraph: api.ApiError with Err, Reason, Status. -/
structure ApiError where
  ErrMsg : String
  Reason : String
  Status : EnumStatusCode
deriving DecidableEq, Repr

/-- Modelled from the spec: api.IsSubgraphCompositionFailedError
(internal/api is not under src/). Spec 4.2: a status carrying a subgraph
composition failed signal is classified CompositionFailed (soft). -/
def IsSubgraphCompositionFailedError (e : ApiError) : Bool :=
  e.Status = .ERR_SUBGRAPH_COMPOSITION_FAILED

/-- Modelled from the spec: api.IsNotFoundError (internal/api is not under
src/). Spec 4.2: a not-found signal on read is classified NotFound. -/
def IsNotFoundError (e : ApiError) : Bool :=
  e.Status = .ERR_NOT_FOUND

/-- A diagnostic emitted through the utils.AddDiagnosticError /
utils.AddDiagnosticWarning helpers: severity, summary and detail. -/
inductive Diagnostic
  | error (summary detail : String)
  | warning (summary detail : String)
deriving DecidableEq, Repr

def Diagnostic.isError : Diagnostic → Bool
  | .error _ _ => true
  | .warning _ _ => false

def Diagnostic.isWarning : Diagnostic → Bool
  | .error _ _ => false
  | .warning _ _ => true

/-- The platformv1.FederatedGraph request payload built by Create and
Update before calling the client adapter. -/
structure FederatedGraph where
  Name : String
  Namespace : String
  RoutingURL : String
  AdmissionWebhookUrl : Option String
  Readme : Option String
  LabelMatchers : List String
deriving DecidableEq, Repr

/-- The graph summary carried by a successful read response
(platformv1.GetFederatedGraphByNameResponse.Graph); the proto getters
GetId, GetName, GetNamespace, GetRoutingURL and the LabelMatchers field
are modelled as plain fields. -/
structure RemoteGraph where
  Id : String
  Name : String
  Namespace : String
  RoutingURL : String
  LabelMatchers : List String
deriving DecidableEq, Repr

structure GetFederatedGraphByNameResponse where
  Graph : RemoteGraph
deriving DecidableEq, Repr

/-- The update response (only the CompositionErrors field is inspected by
the reconciler; each entry is modelled as its rendered string). -/
structure UpdateFederatedGraphResponse where
  CompositionErrors : List String
deriving DecidableEq, Repr

/-- One remote call issued by the reconciler, with its payload; operation
results record the list of calls in issue order. -/
inductive RemoteCall
  | createGraph (admissionWebhookSecret : Option String) (graph : FederatedGraph)
  | getGraph (name ns : String)
  | updateGraph (admissionWebhookSecret : Option String) (graph : FederatedGraph)
  | deleteGraph (name ns : String)
  | getMonograph (name ns : String)
deriving DecidableEq, Repr

def RemoteCall.isGetGraph : RemoteCall → Bool
  | .getGraph _ _ => true
  | _ => false

/-- The api.PlatformClient adapter, modelled as an oracle: one pure
function per remote capability used by the federated-graph resource.
CreateFederatedGraph discards the response payload in the source
(underscore binding), so only its error is modelled; DeleteFederatedGraph
returns a bare error. -/
structure PlatformClient where
  CreateFederatedGraph : Option String → FederatedGraph → Option ApiError
  GetFederatedGraph : String → String → Except ApiError GetFederatedGraphByNameResponse
  UpdateFederatedGraph : Option String → FederatedGraph →
    Option UpdateFederatedGraphResponse × Option ApiError
  DeleteFederatedGraph : String → String → Option ApiError

/-- The resource data model for a federated graph
(FederatedGraphResourceModel); the label-matcher list element values are
modelled directly as strings. -/
structure FederatedGraphResourceModel where
  Id : TFString
  Name : TFString
  Namespace : TFString
  Readme : TFString
  RoutingURL : TFString
  AdmissionWebhookUrl : TFString
  AdmissionWebhookSecret : TFString
  LabelMatchers : List String
deriving DecidableEq, Repr

/-- Result of one lifecycle operation: the response state handed back to
the host orchestrator (none when the resource was removed from tracked
state), the diagnostics, the remote calls issued, and whether the Go code
would have dereferenced a nil pointer on this path. Per spec 4.3 and 7 the
host initialises the response state from the prior state and keeps it
unless the handler overwrites or removes it. -/
structure OpResult where
  state : Option FederatedGraphResourceModel
  diags : List Diagnostic
  calls : List RemoteCall
  panicked : Bool
deriving DecidableEq, Repr

/-- Error-summary constants (internal/service/federated-graph/errors are
not under src/; the values are opaque summaries, only their identity
matters to the reconciler logic). -/
def ErrInvalidResourceID : String := "Invalid Resource ID"

def ErrCompositionError : String := "Composition Error"

def ErrCompositionErrors : String := "Composition Errors"

def ErrCreatingGraph : String := "Error Creating Graph"

def ErrReadingGraph : String := "Error Reading Graph"

def ErrUpdatingGraph : String := "Error Updating Graph"

def ErrDeletingGraph : String := "Error Deleting Graph"

def ErrInvalidLabelMatchers : String := "Invalid Label Matchers"

def ErrReadingMonograph : String := "Error Reading Monograph"

def ErrInvalidMonographName : String := "Invalid Monograph Name"

/-- A label-matcher token is a single key=value pair: exactly one equals
sign, a non-empty key before it and a non-empty value after it. -/
def isValidLabelMatcher (s : String) : Bool :=
  let cs := s.toList
  cs.count '=' == 1 &&
    !(cs.takeWhile fun c => c ≠ '=').isEmpty &&
    !((cs.dropWhile fun c => c ≠ '=').drop 1).isEmpty

/-- Modelled from the spec: utils.ConvertAndValidateLabelMatchers
(internal/utils is not under src/). Spec 4.1: accepts an ordered sequence
of strings, each must match key=value (non-empty key, non-empty value,
single equals sign), order is preserved, empty input is valid, fails fast
on the first malformed entry naming the offending entry. The Go helper
also attaches the error diagnostic itself; here the caller attaches it. -/
def ConvertAndValidateLabelMatchers : List String → Except String (List String)
  | [] => .ok []
  | s :: rest =>
    if isValidLabelMatcher s then
      match ConvertAndValidateLabelMatchers rest with
      | .ok tail => .ok (s :: tail)
      | .error e => .error e
    else
      .error s

/-- The admission webhook secret pointer built identically in Create and
Update: nil when the tracked value is null, the value pointer
otherwise. -/
def buildSecret (data : FederatedGraphResourceModel) : Option String :=
  if !data.AdmissionWebhookSecret.IsNull then data.AdmissionWebhookSecret.ValueStringPointer
  else none

/-- The platformv1.FederatedGraph payload built identically in
createFederatedGraph and Update from the tracked model and the validated
label matchers. -/
def buildApiGraph (data : FederatedGraphResourceModel) (labelMatchers : List String) :
    FederatedGraph :=
  { Name := data.Name.ValueString
    Namespace := data.Namespace.ValueString
    RoutingURL := data.RoutingURL.ValueString
    AdmissionWebhookUrl := data.AdmissionWebhookUrl.ValueStringPointer
    Readme := data.Readme.ValueStringPointer
    LabelMatchers := labelMatchers }

/-- Shared tail of createFederatedGraph: the authoritative re-read of the
graph by (name, namespace) after the create call (soft-success or hard
success), threading the diagnostics and calls accumulated so far. -/
def createFetch (client : PlatformClient) (apiGraph : FederatedGraph)
    (diags : List Diagnostic) (calls : List RemoteCall) :
    (Option GetFederatedGraphByNameResponse × Option ApiError) × List Diagnostic × List RemoteCall :=
  match client.GetFederatedGraph apiGraph.Name apiGraph.Namespace with
  | .error apiError =>
    ((none, some apiError), diags, calls ++ [.getGraph apiGraph.Name apiGraph.Namespace])
  | .ok response =>
    ((some response, none), diags, calls ++ [.getGraph apiGraph.Name apiGraph.Namespace])

/-- createFederatedGraph: validate label matchers, build the payload, call
CreateFederatedGraph; on a composition-failed error warn and continue, on
any other error return it; then re-read the graph by (name, namespace).
Returns (response, error) as in the source, plus the diagnostics and the
calls issued. -/
def createFederatedGraph (client : PlatformClient) (data : FederatedGraphResourceModel) :
    (Option GetFederatedGraphByNameResponse × Option ApiError) × List Diagnostic × List RemoteCall :=
  match ConvertAndValidateLabelMatchers data.LabelMatchers with
  | .error e =>
    ((none, some { ErrMsg := e, Reason := "CreateFederatedGraph", Status := .ERR }), [], [])
  | .ok labelMatchers =>
    let apiGraph := buildApiGraph data labelMatchers
    let admissionWebhookSecret := buildSecret data
    match client.CreateFederatedGraph admissionWebhookSecret apiGraph with
    | some apiError =>
      if IsSubgraphCompositionFailedError apiError then
        createFetch client apiGraph [.warning ErrCompositionError apiError.ErrMsg]
          [.createGraph admissionWebhookSecret apiGraph]
      else
        ((none, some apiError), [], [.createGraph admissionWebhookSecret apiGraph])
    | none =>
      createFetch client apiGraph [] [.createGraph admissionWebhookSecret apiGraph]

/-- Tail of Create after error classification: dereference response.Graph
(a nil response here is the Go nil-pointer dereference, recorded as
panicked) and persist the model with Id, Name, Namespace and RoutingURL
taken from the read response. -/
def createFinish (response : Option GetFederatedGraphByNameResponse)
    (diags : List Diagnostic) (calls : List RemoteCall)
    (data : FederatedGraphResourceModel) : OpResult :=
  match response with
  | none => { state := none, diags := diags, calls := calls, panicked := true }
  | some r =>
    let graph := r.Graph
    { state := some { data with
        Id := .strV graph.Id
        Name := .strV graph.Name
        Namespace := .strV graph.Namespace
        RoutingURL := .strV graph.RoutingURL }
      diags := diags
      calls := calls
      panicked := false }

/-- FederatedGraphResource.Create: run createFederatedGraph; a returned
composition-failed error yields two warnings (the source adds the warning
in both the branch and the fall-through) and still falls through to read
response.Graph; any other returned error aborts with an error diagnostic
and nothing persisted (the resource stays Unmanaged: a CreateResponse
starts with no state). -/
def FederatedGraphResource.Create (client : PlatformClient)
    (plan : FederatedGraphResourceModel) : OpResult :=
  let data := plan
  match createFederatedGraph client data with
  | ((response, apiError), diags, calls) =>
    match apiError with
    | some e =>
      if IsSubgraphCompositionFailedError e then
        createFinish response
          (diags ++ [.warning ErrCompositionError e.ErrMsg, .warning ErrCompositionError e.ErrMsg])
          calls data
      else
        { state := none, diags := diags ++ [.error ErrCreatingGraph e.ErrMsg], calls := calls,
          panicked := false }
    | none => createFinish response diags calls data

/-- FederatedGraphResource.Read: refuse a null or empty id before any
remote call; on a NotFound read error warn and remove the resource from
state; on any other error keep the state and add an error diagnostic; on
success overwrite Id, Name, Namespace, RoutingURL and LabelMatchers from
the response, leaving every other tracked field unchanged. -/
def FederatedGraphResource.Read (client : PlatformClient)
    (data : FederatedGraphResourceModel) : OpResult :=
  if data.Id.IsNull || data.Id.ValueString == "" then
    { state := some data
      diags := [.error ErrInvalidResourceID "Cannot read federated graph without an ID."]
      calls := []
      panicked := false }
  else
    match client.GetFederatedGraph data.Name.ValueString data.Namespace.ValueString with
    | .error err =>
      if IsNotFoundError err then
        { state := none
          diags := [.warning "Graph not found"
            ("Graph " ++ data.Name.ValueString ++ " not found will be recreated")]
          calls := [.getGraph data.Name.ValueString data.Namespace.ValueString]
          panicked := false }
      else
        { state := some data
          diags := [.error ErrReadingGraph
            ("Could not fetch subgraph " ++ data.Name.ValueString ++ ": " ++ err.ErrMsg)]
          calls := [.getGraph data.Name.ValueString data.Namespace.ValueString]
          panicked := false }
    | .ok apiResponse =>
      let graph := apiResponse.Graph
      { state := some { data with
          Id := .strV graph.Id
          Name := .strV graph.Name
          Namespace := .strV graph.Namespace
          RoutingURL := .strV graph.RoutingURL
          LabelMatchers := graph.LabelMatchers }
        diags := []
        calls := [.getGraph data.Name.ValueString data.Namespace.ValueString]
        panicked := false }

/-- Tail of Update after error classification: inspect
apiResponse.CompositionErrors (a nil response here is the Go nil-pointer
dereference, recorded as panicked); a non-empty list warns and returns
without persisting, otherwise the submitted plan is persisted as the new
state. -/
def updateFinish (apiResponse : Option UpdateFederatedGraphResponse)
    (prior : Option FederatedGraphResourceModel) (data : FederatedGraphResourceModel)
    (graph : FederatedGraph) (diags : List Diagnostic) (calls : List RemoteCall) : OpResult :=
  match apiResponse with
  | none => { state := prior, diags := diags, calls := calls, panicked := true }
  | some r =>
    if r.CompositionErrors.length > 0 then
      { state := prior
        diags := diags ++ [.warning ErrCompositionError
          ("Composition errors: " ++ String.intercalate ", " r.CompositionErrors ++
            ", graph name: " ++ graph.Name ++ ", graph namespace: " ++ graph.Namespace)]
        calls := calls
        panicked := false }
    else
      { state := some data, diags := diags, calls := calls, panicked := false }

/-- FederatedGraphResource.Update: refuse a null or empty id before any
remote call; validate label matchers; call UpdateFederatedGraph with the
rebuilt payload; a composition-failed error warns and continues, any other
error aborts leaving the prior state; then updateFinish inspects the
response composition-errors list. prior is the state the host keeps when
the handler returns without setting one. -/
def FederatedGraphResource.Update (client : PlatformClient)
    (prior : Option FederatedGraphResourceModel)
    (plan : FederatedGraphResourceModel) : OpResult :=
  let data := plan
  if data.Id.IsNull || data.Id.ValueString == "" then
    { state := prior
      diags := [.error ErrInvalidResourceID
        ("Cannot update federated graph because the resource ID is missing. Graph name: " ++
          data.Name.ValueString ++ ", graph namespace: " ++ data.Namespace.ValueString)]
      calls := []
      panicked := false }
  else
    match ConvertAndValidateLabelMatchers data.LabelMatchers with
    | .error e =>
      { state := prior, diags := [.error ErrInvalidLabelMatchers e], calls := [],
        panicked := false }
    | .ok labelMatchers =>
      let graph := buildApiGraph data labelMatchers
      let admissionWebhookSecret := buildSecret data
      match client.UpdateFederatedGraph admissionWebhookSecret graph with
      | (apiResponse, some e) =>
        if IsSubgraphCompositionFailedError e then
          updateFinish apiResponse prior data graph
            [.warning ErrCompositionErrors e.ErrMsg]
            [.updateGraph admissionWebhookSecret graph]
        else
          { state := prior
            diags := [.error ErrUpdatingGraph e.ErrMsg]
            calls := [.updateGraph admissionWebhookSecret graph]
            panicked := false }
      | (apiResponse, none) =>
        updateFinish apiResponse prior data graph []
          [.updateGraph admissionWebhookSecret graph]

/-- FederatedGraphResource.Delete: refuse a null or empty id before any
remote call; call DeleteFederatedGraph by (name, namespace); any error at
all aborts with an error diagnostic, leaving the tracked state exactly as
it was (there is no soft-failure branch); on success nothing is written
and the host drops the resource. -/
def FederatedGraphResource.Delete (client : PlatformClient)
    (data : FederatedGraphResourceModel) : OpResult :=
  if data.Id.IsNull || data.Id.ValueString == "" then
    { state := some data
      diags := [.error ErrInvalidResourceID
        ("Cannot delete the federated graph because the resource ID is missing. Graph name: " ++
          data.Name.ValueString ++ ", graph namespace: " ++ data.Namespace.ValueString)]
      calls := []
      panicked := false }
  else
    match client.DeleteFederatedGraph data.Name.ValueString data.Namespace.ValueString with
    | some err =>
      { state := some data
        diags := [.error ErrDeletingGraph
          ("Could not delete federated graph: " ++ err.ErrMsg ++ ", graph name: " ++
            data.Name.ValueString ++ ", graph namespace: " ++ data.Namespace.ValueString)]
        calls := [.deleteGraph data.Name.ValueString data.Namespace.ValueString]
        panicked := false }
    | none =>
      { state := some data
        diags := []
        calls := [.deleteGraph data.Name.ValueString data.Namespace.ValueString]
        panicked := false }

/-- The monograph data source data model (MonographDataSourceModel). -/
structure MonographDataSourceModel where
  Id : TFString
  Name : TFString
  Namespace : TFString
  Readme : TFString
  RoutingURL : TFString
  AdmissionWebhookSecret : TFString
  LabelMatchers : List String
  WebsocketSubprotocol : TFString
  SubscriptionProtocol : TFString
  AdmissionWebhookURL : TFString
deriving DecidableEq, Repr

/-- The monograph summary returned by a successful GetMonograph call; the
proto getters are modelled as plain fields. -/
structure Monograph where
  Id : String
  Name : String
  Namespace : String
  RoutingURL : String
  Readme : String
  AdmissionWebhookUrl : String
deriving DecidableEq, Repr

/-- Result of a monograph data source Read. -/
structure MonoOpResult where
  state : Option MonographDataSourceModel
  diags : List Diagnostic
  calls : List RemoteCall
deriving DecidableEq, Repr

/-- MonographDataSource.Read: require a non-empty name, default the
namespace to "default", call GetMonograph; ANY error — the source does not
distinguish NotFound — adds a fatal error diagnostic and returns; on
success populate the computed fields from the response. The client is the
GetMonograph capability of the adapter, modelled as an oracle. -/
def MonographDataSource.Read (client : String → String → Except ApiError Monograph)
    (data : MonographDataSourceModel) : MonoOpResult :=
  if data.Name.IsNull || data.Name.ValueString == "" then
    { state := some data
      diags := [.error ErrInvalidMonographName
        ("The name attribute is required for monograph in namespace: " ++
          data.Namespace.ValueString)]
      calls := [] }
  else
    let ns := if data.Namespace.ValueString == "" then "default" else data.Namespace.ValueString
    match client data.Name.ValueString ns with
    | .error err =>
      { state := some data
        diags := [.error ErrReadingMonograph
          ("Could not read monograph: " ++ err.ErrMsg ++ ", name: " ++
            data.Name.ValueString ++ ", namespace: " ++ ns)]
        calls := [.getMonograph data.Name.ValueString ns] }
    | .ok monograph =>
      { state := some { data with
          Id := .strV monograph.Id
          Name := .strV monograph.Name
          Namespace := .strV monograph.Namespace
          RoutingURL := .strV monograph.RoutingURL
          Readme := .strV monograph.Readme
          AdmissionWebhookURL := .strV monograph.AdmissionWebhookUrl }
        diags := []
        calls := [.getMonograph data.Name.ValueString ns] }

/-- The response status envelope (common.Response): code and details. -/
structure StatusResponse where
  Code : EnumStatusCode
  Details : String
deriving DecidableEq, Repr

/-- A connect RPC response wrapper whose Msg field is a nullable message
envelope (connect.Response with Msg possibly nil). -/
structure ConnectResponse (α : Type) where
  Msg : Option α
deriving DecidableEq, Repr

/-- platformv1.CreateFederatedGraphTokenRequest. -/
structure CreateFederatedGraphTokenRequest where
  GraphName : String
  Namespace : String
  TokenName : String
deriving DecidableEq, Repr

/-- The CreateFederatedGraphToken response message. The inner Response
envelope is a pointer in the generated Go; a nil inner envelope on a
non-nil Msg is outside every claim here and is modelled as a plain
field. -/
structure CreateFederatedGraphTokenResponseMsg where
  Response : StatusResponse
  Token : String
deriving DecidableEq, Repr

/-- platformv1.DeleteRouterTokenRequest: it carries ONLY the token name
and the namespace. -/
structure DeleteRouterTokenRequest where
  TokenName : String
  Namespace : String
deriving DecidableEq, Repr

/-- The DeleteRouterToken response message. -/
structure DeleteRouterTokenResponseMsg where
  Response : StatusResponse
deriving DecidableEq, Repr

/-- The request CreateToken builds from its arguments. -/
def createTokenRequest (name graphName ns : String) : CreateFederatedGraphTokenRequest :=
  { GraphName := graphName, Namespace := ns, TokenName := name }

/-- PlatformClient.CreateToken: build the request, invoke the RPC (an
oracle from requests to transport results), and return the Go pair
(token, error): empty token with the transport error, a hard failure when
the response message envelope is nil, a hard failure with the envelope
details on a non-OK status, and the token otherwise. -/
def CreateToken
    (rpc : CreateFederatedGraphTokenRequest →
      Except String (ConnectResponse CreateFederatedGraphTokenResponseMsg))
    (name graphName ns : String) : String × Option String :=
  let request := createTokenRequest name graphName ns
  match rpc request with
  | .error err => ("", some err)
  | .ok response =>
    match response.Msg with
    | none => ("", some "failed to create token, the server response is nil")
    | some msg =>
      if msg.Response.Code ≠ .OK then
        ("", some ("failed to create token: " ++ msg.Response.Details))
      else
        (msg.Token, none)

/-- The request DeleteToken builds from its arguments: graphName is a
parameter of DeleteToken but no field of the request. -/
def deleteTokenRequest (tokenName graphName ns : String) : DeleteRouterTokenRequest :=
  { TokenName := tokenName, Namespace := ns }

/-- PlatformClient.DeleteToken: build the request (token name and
namespace only), invoke the RPC, and return the Go error: a wrapped
transport error, a hard failure when the response message envelope is
nil, a hard failure rendering the message on a non-OK status, nil
otherwise. -/
def DeleteToken
    (rpc : DeleteRouterTokenRequest →
      Except String (ConnectResponse DeleteRouterTokenResponseMsg))
    (tokenName graphName ns : String) : Option String :=
  let request := deleteTokenRequest tokenName graphName ns
  match rpc request with
  | .error err => some ("failed to delete token: " ++ err)
  | .ok response =>
    match response.Msg with
    | none => some "failed to delete token, the server response is nil"
    | some msg =>
      if msg.Response.Code ≠ .OK then
        some ("failed to delete token: " ++ msg.Response.Details)
      else
        none

theorem convertAndValidate_of_valid (ms : List String)
    (h : ∀ s ∈ ms, isValidLabelMatcher s = true) :
    ConvertAndValidateLabelMatchers ms = .ok ms := by
  induction ms with
  | nil => rfl
  | cons s rest ih =>
    simp only [ConvertAndValidateLabelMatchers, h s (List.mem_cons_self s rest), if_true]
    rw [ih fun t ht => h t (List.mem_cons_of_mem s ht)]

/-- A tracked model with an assigned id, used as concrete input for
witnesses. -/
def sampleModel : FederatedGraphResourceModel :=
  { Id := .strV "graph-1"
    Name := .strV "orders"
    Namespace := .strV "default"
    Readme := .strV "readme text"
    RoutingURL := .strV "http://svc/routing"
    AdmissionWebhookUrl := .nullV
    AdmissionWebhookSecret := .nullV
    LabelMatchers := ["team=payments", "env=prod"] }

/-- The sample model before its first create: no id assigned yet. -/
def emptyIdModel : FederatedGraphResourceModel :=
  { sampleModel with Id := .nullV }

/-- The remote graph the sample control plane stores. -/
def sampleRemoteGraph : RemoteGraph :=
  { Id := "graph-1"
    Name := "orders"
    Namespace := "default"
    RoutingURL := "http://svc/routing"
    LabelMatchers := ["team=payments", "env=prod"] }

/-- A control plane on which every call succeeds and reads return the
sample graph. -/
def okClient : PlatformClient :=
  { CreateFederatedGraph := fun _ _ => none
    GetFederatedGraph := fun _ _ => .ok ⟨sampleRemoteGraph⟩
    UpdateFederatedGraph := fun _ _ => (some ⟨[]⟩, none)
    DeleteFederatedGraph := fun _ _ => none }

/-- C4: for every Read, Update or Delete invocation whose current-state
identifier is null or the empty string, the operation fails with the
caller-contract error diagnostic (ErrInvalidResourceID) and makes zero
remote calls. -/
theorem emptyId_fails_without_remote_calls (client : PlatformClient)
    (prior : Option FederatedGraphResourceModel) (data : FederatedGraphResourceModel)
    (h : (data.Id.IsNull || data.Id.ValueString == "") = true) :
    ((FederatedGraphResource.Read client data).calls = [] ∧
      (FederatedGraphResource.Read client data).diags =
        [.error ErrInvalidResourceID "Cannot read federated graph without an ID."]) ∧
    ((FederatedGraphResource.Update client prior data).calls = [] ∧
      (FederatedGraphResource.Update client prior data).diags =
        [.error ErrInvalidResourceID
          ("Cannot update federated graph because the resource ID is missing. Graph name: " ++
            data.Name.ValueString ++ ", graph namespace: " ++ data.Namespace.ValueString)]) ∧
    ((FederatedGraphResource.Delete client data).calls = [] ∧
      (FederatedGraphResource.Delete client data).diags =
        [.error ErrInvalidResourceID
          ("Cannot delete the federated graph because the resource ID is missing. Graph name: " ++
            data.Name.ValueString ++ ", graph namespace: " ++ data.Namespace.ValueString)]) := by
  simp [FederatedGraphResource.Read, FederatedGraphResource.Update,
    FederatedGraphResource.Delete, h]

theorem emptyId_fails_without_remote_calls_witness :
    (emptyIdModel.Id.IsNull || emptyIdModel.Id.ValueString == "") = true ∧
    (FederatedGraphResource.Read okClient emptyIdModel).calls = [] ∧
    (FederatedGraphResource.Update okClient (some sampleModel) emptyIdModel).calls = [] ∧
    (FederatedGraphResource.Delete okClient emptyIdModel).calls = [] :=
  have h := emptyId_fails_without_remote_calls okClient (some sampleModel) emptyIdModel (by decide)
  ⟨by decide, h.1.1, h.2.1.1, h.2.2.1⟩

/-- C6: on every successful Read, the tracked state's id, name, namespace,
routing URL and label-matcher list are overwritten from the remote
response, and every other field — readme, admission webhook URL and the
sensitive admission webhook secret — is left unchanged: the secret is
never populated from a read response. -/
theorem read_success_overwrites_computed_fields_only (client : PlatformClient)
    (data : FederatedGraphResourceModel) (resp : GetFederatedGraphByNameResponse)
    (hid : (data.Id.IsNull || data.Id.ValueString == "") = false)
    (hok : client.GetFederatedGraph data.Name.ValueString data.Namespace.ValueString = .ok resp) :
    (FederatedGraphResource.Read client data).state = some
      { data with
        Id := .strV resp.Graph.Id
        Name := .strV resp.Graph.Name
        Namespace := .strV resp.Graph.Namespace
        RoutingURL := .strV resp.Graph.RoutingURL
        LabelMatchers := resp.Graph.LabelMatchers } ∧
    ∀ d, (FederatedGraphResource.Read client data).state = some d →
      d.Readme = data.Readme ∧
      d.AdmissionWebhookUrl = data.AdmissionWebhookUrl ∧
      d.AdmissionWebhookSecret = data.AdmissionWebhookSecret := by
  have hstate : (FederatedGraphResource.Read client data).state = some
      { data with
        Id := .strV resp.Graph.Id
        Name := .strV resp.Graph.Name
        Namespace := .strV resp.Graph.Namespace
        RoutingURL := .strV resp.Graph.RoutingURL
        LabelMatchers := resp.Graph.LabelMatchers } := by
    simp [FederatedGraphResource.Read, hid, hok]
  refine ⟨hstate, fun d hd => ?_⟩
  rw [hstate] at hd
  cases hd
  exact ⟨rfl, rfl, rfl⟩

theorem read_success_overwrites_computed_fields_only_witness :
    okClient.GetFederatedGraph sampleModel.Name.ValueString sampleModel.Namespace.ValueString =
      .ok ⟨sampleRemoteGraph⟩ ∧
    (FederatedGraphResource.Read okClient sampleModel).state = some
      { sampleModel with
        Id := .strV sampleRemoteGraph.Id
        Name := .strV sampleRemoteGraph.Name
        Namespace := .strV sampleRemoteGraph.Namespace
        RoutingURL := .strV sampleRemoteGraph.RoutingURL
        LabelMatchers := sampleRemoteGraph.LabelMatchers } :=
  ⟨rfl, (read_success_overwrites_computed_fields_only okClient sampleModel ⟨sampleRemoteGraph⟩
    (by decide) rfl).1⟩

/-- C3 (amended): for every federated-graph resource Read whose remote
read returns a NotFound outcome, the resource is removed from tracked
state (Unmanaged) and exactly one warning and no error diagnostic is
emitted. -/
theorem read_notFound_unmanaged_one_warning (client : PlatformClient)
    (data : FederatedGraphResourceModel) (err : ApiError)
    (hid : (data.Id.IsNull || data.Id.ValueString == "") = false)
    (herr : client.GetFederatedGraph data.Name.ValueString data.Namespace.ValueString =
      .error err)
    (hnf : IsNotFoundError err = true) :
    (FederatedGraphResource.Read client data).state = none ∧
    ((FederatedGraphResource.Read client data).diags.countP fun d => d.isWarning = true) = 1 ∧
    ((FederatedGraphResource.Read client data).diags.countP fun d => d.isError = true) = 0 := by
  simp [FederatedGraphResource.Read, hid, herr, hnf, Diagnostic.isWarning, Diagnostic.isError]

/-- The NotFound outcome used in concrete runs. -/
def notFoundErr : ApiError :=
  { ErrMsg := "graph not found", Reason := "GetFederatedGraph", Status := .ERR_NOT_FOUND }

/-- A control plane on which every read reports NotFound. -/
def notFoundClient : PlatformClient :=
  { okClient with GetFederatedGraph := fun _ _ => .error notFoundErr }

theorem read_notFound_unmanaged_one_warning_witness :
    IsNotFoundError notFoundErr = true ∧
    (FederatedGraphResource.Read notFoundClient sampleModel).state = none :=
  ⟨by decide, (read_notFound_unmanaged_one_warning notFoundClient sampleModel notFoundErr
    (by decide) rfl (by decide)).1⟩

/-- The monograph data source query used in the C3 counterexample. -/
def monoData : MonographDataSourceModel :=
  { Id := .nullV
    Name := .strV "orders"
    Namespace := .strV "default"
    Readme := .nullV
    RoutingURL := .nullV
    AdmissionWebhookSecret := .nullV
    LabelMatchers := []
    WebsocketSubprotocol := .nullV
    SubscriptionProtocol := .nullV
    AdmissionWebhookURL := .nullV }

/-- C3 (counterexample): a monograph data source Read — one of the Read
invocations the claim covers — whose remote read returns a NotFound
outcome emits a fatal error diagnostic, emits no warning, and does not
remove the resource from tracked state. -/
theorem monograph_read_notFound_emits_fatal_error :
    IsNotFoundError notFoundErr = true ∧
    ((MonographDataSource.Read (fun _ _ => .error notFoundErr) monoData).diags.any
      Diagnostic.isError) = true ∧
    ((MonographDataSource.Read (fun _ _ => .error notFoundErr) monoData).diags.any
      Diagnostic.isWarning) = false ∧
    (MonographDataSource.Read (fun _ _ => .error notFoundErr) monoData).state ≠ none := by
  exact ⟨by decide, by decide, by decide, by decide⟩

/-- C1: for every Create in which the remote CreateGraph call returns a
composition-failed (soft) outcome, the reconciler still issues a ReadGraph
by (name, namespace), and the persisted state after Create is Managed with
a non-empty identifier taken from that read response. -/
theorem create_compositionFailed_still_reads (client : PlatformClient)
    (plan : FederatedGraphResourceModel) (ms : List String) (e : ApiError)
    (resp : GetFederatedGraphByNameResponse)
    (hval : ConvertAndValidateLabelMatchers plan.LabelMatchers = .ok ms)
    (hcreate : client.CreateFederatedGraph (buildSecret plan) (buildApiGraph plan ms) = some e)
    (hcomp : IsSubgraphCompositionFailedError e = true)
    (hget : client.GetFederatedGraph plan.Name.ValueString plan.Namespace.ValueString = .ok resp)
    (hidne : resp.Graph.Id ≠ "") :
    (FederatedGraphResource.Create client plan).calls =
      [.createGraph (buildSecret plan) (buildApiGraph plan ms),
       .getGraph plan.Name.ValueString plan.Namespace.ValueString] ∧
    (FederatedGraphResource.Create client plan).state = some
      { plan with
        Id := .strV resp.Graph.Id
        Name := .strV resp.Graph.Name
        Namespace := .strV resp.Graph.Namespace
        RoutingURL := .strV resp.Graph.RoutingURL } ∧
    ∀ d, (FederatedGraphResource.Create client plan).state = some d →
      d.Id.ValueString ≠ "" := by
  have hrun : FederatedGraphResource.Create client plan =
      { state := some { plan with
          Id := .strV resp.Graph.Id
          Name := .strV resp.Graph.Name
          Namespace := .strV resp.Graph.Namespace
          RoutingURL := .strV resp.Graph.RoutingURL }
        diags := [.warning ErrCompositionError e.ErrMsg]
        calls := [.createGraph (buildSecret plan) (buildApiGraph plan ms),
          .getGraph plan.Name.ValueString plan.Namespace.ValueString]
        panicked := false } := by
    simp only [buildApiGraph] at hcreate
    simp [FederatedGraphResource.Create, createFederatedGraph, createFetch, createFinish,
      hval, hcreate, hcomp, buildApiGraph, hget]
  refine ⟨by rw [hrun], by rw [hrun], fun d hd => ?_⟩
  rw [hrun] at hd
  cases hd
  exact hidne

/-- The composition-failed (soft) outcome used in concrete runs. -/
def compositionErr : ApiError :=
  { ErrMsg := "composition failed", Reason := "CreateFederatedGraph",
    Status := .ERR_SUBGRAPH_COMPOSITION_FAILED }

/-- A control plane whose create call reports a composition failure while
the graph is nonetheless created and readable. -/
def compositionFailedCreateClient : PlatformClient :=
  { okClient with CreateFederatedGraph := fun _ _ => some compositionErr }

theorem create_compositionFailed_still_reads_witness :
    sampleRemoteGraph.Id ≠ "" ∧
    (FederatedGraphResource.Create compositionFailedCreateClient emptyIdModel).calls =
      [.createGraph (buildSecret emptyIdModel) (buildApiGraph emptyIdModel
        ["team=payments", "env=prod"]),
       .getGraph emptyIdModel.Name.ValueString emptyIdModel.Namespace.ValueString] ∧
    (FederatedGraphResource.Create compositionFailedCreateClient emptyIdModel).state = some
      { emptyIdModel with
        Id := .strV sampleRemoteGraph.Id
        Name := .strV sampleRemoteGraph.Name
        Namespace := .strV sampleRemoteGraph.Namespace
        RoutingURL := .strV sampleRemoteGraph.RoutingURL } :=
  have h := create_compositionFailed_still_reads compositionFailedCreateClient emptyIdModel
    ["team=payments", "env=prod"] compositionErr
    ⟨sampleRemoteGraph⟩ (by rfl) (by rfl) (by decide) (by rfl) (by decide)
  ⟨by decide, h.1, h.2.1⟩

/-- C2: for every Update reaching the remote call whose response is
delivered (possibly alongside a soft composition-failed error), a
non-empty composition-errors list makes Update emit a warning and return
without persisting any state change; otherwise, on success, Update
persists exactly the submitted plan payload as the new tracked state; in
all cases the only remote call is the UpdateGraph itself — no re-read is
issued. -/
theorem update_compositionErrors_warning_else_persist_plan (client : PlatformClient)
    (prior : Option FederatedGraphResourceModel) (plan : FederatedGraphResourceModel)
    (ms : List String) (uresp : UpdateFederatedGraphResponse) (aerr : Option ApiError)
    (hid : (plan.Id.IsNull || plan.Id.ValueString == "") = false)
    (hval : ConvertAndValidateLabelMatchers plan.LabelMatchers = .ok ms)
    (hupd : client.UpdateFederatedGraph (buildSecret plan) (buildApiGraph plan ms) =
      (some uresp, aerr))
    (hsoft : ∀ e, aerr = some e → IsSubgraphCompositionFailedError e = true) :
    ((FederatedGraphResource.Update client prior plan).calls =
        [.updateGraph (buildSecret plan) (buildApiGraph plan ms)] ∧
      ((FederatedGraphResource.Update client prior plan).calls.any RemoteCall.isGetGraph) =
        false) ∧
    (uresp.CompositionErrors ≠ [] →
      (FederatedGraphResource.Update client prior plan).state = prior ∧
      ((FederatedGraphResource.Update client prior plan).diags.any Diagnostic.isWarning) =
        true) ∧
    (uresp.CompositionErrors = [] → aerr = none →
      (FederatedGraphResource.Update client prior plan).state = some plan ∧
      (FederatedGraphResource.Update client prior plan).diags = []) := by
  obtain ⟨ces⟩ := uresp
  cases aerr with
  | none =>
    cases ces with
    | nil =>
      simp [FederatedGraphResource.Update, hid, hval, hupd, updateFinish,
        RemoteCall.isGetGraph]
    | cons c cs =>
      simp [FederatedGraphResource.Update, hid, hval, hupd, updateFinish,
        Diagnostic.isWarning, RemoteCall.isGetGraph]
  | some e =>
    have hc := hsoft e rfl
    cases ces with
    | nil =>
      simp [FederatedGraphResource.Update, hid, hval, hupd, updateFinish, hc,
        RemoteCall.isGetGraph]
    | cons c cs =>
      simp [FederatedGraphResource.Update, hid, hval, hupd, updateFinish, hc,
        Diagnostic.isWarning, RemoteCall.isGetGraph]

theorem update_compositionErrors_warning_else_persist_plan_witness :
    okClient.UpdateFederatedGraph (buildSecret sampleModel)
      (buildApiGraph sampleModel ["team=payments", "env=prod"]) = (some ⟨[]⟩, none) ∧
    (FederatedGraphResource.Update okClient (some emptyIdModel) sampleModel).state =
      some sampleModel ∧
    ((FederatedGraphResource.Update okClient (some emptyIdModel) sampleModel).calls.any
      RemoteCall.isGetGraph) = false :=
  have h := update_compositionErrors_warning_else_persist_plan okClient (some emptyIdModel)
    sampleModel ["team=payments", "env=prod"] ⟨[]⟩ none (by decide) (by rfl) (by rfl)
    (fun e he => by cases he)
  ⟨by rfl, (h.2.2 rfl rfl).1, h.1.2⟩

/-- C5: an Update whose remote call returns a generic hard failure aborts
with an error diagnostic and leaves the tracked state exactly equal to its
pre-invocation value; a Delete whose remote call fails — with ANY error,
composition-failed status included, since Delete has no soft-failure
branch — likewise aborts with an error diagnostic and leaves the tracked
state untouched. -/
theorem hard_failure_aborts_preserving_state (client : PlatformClient)
    (prior : Option FederatedGraphResourceModel) (plan data : FederatedGraphResourceModel)
    (ms : List String) (r : Option UpdateFederatedGraphResponse) (e e2 : ApiError)
    (hid : (plan.Id.IsNull || plan.Id.ValueString == "") = false)
    (hval : ConvertAndValidateLabelMatchers plan.LabelMatchers = .ok ms)
    (hupd : client.UpdateFederatedGraph (buildSecret plan) (buildApiGraph plan ms) = (r, some e))
    (hhard : IsSubgraphCompositionFailedError e = false)
    (hidD : (data.Id.IsNull || data.Id.ValueString == "") = false)
    (hdel : client.DeleteFederatedGraph data.Name.ValueString data.Namespace.ValueString =
      some e2) :
    ((FederatedGraphResource.Update client prior plan).state = prior ∧
      (FederatedGraphResource.Update client prior plan).diags =
        [.error ErrUpdatingGraph e.ErrMsg]) ∧
    ((FederatedGraphResource.Delete client data).state = some data ∧
      (FederatedGraphResource.Delete client data).diags =
        [.error ErrDeletingGraph
          ("Could not delete federated graph: " ++ e2.ErrMsg ++ ", graph name: " ++
            data.Name.ValueString ++ ", graph namespace: " ++ data.Namespace.ValueString)]) := by
  constructor
  · simp [FederatedGraphResource.Update, hid, hval, hupd, hhard]
  · simp [FederatedGraphResource.Delete, hidD, hdel]

/-- The generic hard failure used in concrete runs. -/
def hardErr : ApiError :=
  { ErrMsg := "internal error", Reason := "UpdateFederatedGraph", Status := .ERR }

/-- A control plane on which update and delete fail hard; for delete the
error even carries the composition-failed status, showing Delete treats it
as hard all the same. -/
def hardFailureClient : PlatformClient :=
  { okClient with
    UpdateFederatedGraph := fun _ _ => (none, some hardErr)
    DeleteFederatedGraph := fun _ _ => some compositionErr }

theorem hard_failure_aborts_preserving_state_witness :
    IsSubgraphCompositionFailedError hardErr = false ∧
    (FederatedGraphResource.Update hardFailureClient (some sampleModel) sampleModel).state =
      some sampleModel ∧
    (FederatedGraphResource.Delete hardFailureClient sampleModel).state = some sampleModel :=
  have h := hard_failure_aborts_preserving_state hardFailureClient (some sampleModel)
    sampleModel sampleModel ["team=payments", "env=prod"] none hardErr compositionErr
    (by decide) (by rfl) (by rfl) (by decide) (by decide) (by rfl)
  ⟨by decide, h.1.1, h.2.1⟩

/-- C7: for every valid label-matcher list, validation round-trips to the
same tokens in the same order, the Update submits exactly those tokens in
that order in its payload and persists them in tracked state, and a
subsequent Read against a remote that returns what was stored yields the
same tokens in the same order. -/
theorem labelMatchers_update_read_roundtrip (client : PlatformClient)
    (prior : Option FederatedGraphResourceModel) (plan : FederatedGraphResourceModel)
    (ms : List String) (uresp : UpdateFederatedGraphResponse)
    (resp : GetFederatedGraphByNameResponse)
    (hms : plan.LabelMatchers = ms)
    (hvalid : ∀ s ∈ ms, isValidLabelMatcher s = true)
    (hid : (plan.Id.IsNull || plan.Id.ValueString == "") = false)
    (hupd : client.UpdateFederatedGraph (buildSecret plan) (buildApiGraph plan ms) =
      (some uresp, none))
    (hces : uresp.CompositionErrors = [])
    (hget : client.GetFederatedGraph plan.Name.ValueString plan.Namespace.ValueString = .ok resp)
    (hstored : resp.Graph.LabelMatchers = ms) :
    ConvertAndValidateLabelMatchers ms = .ok ms ∧
    (FederatedGraphResource.Update client prior plan).calls =
      [.updateGraph (buildSecret plan) (buildApiGraph plan ms)] ∧
    (buildApiGraph plan ms).LabelMatchers = ms ∧
    (FederatedGraphResource.Update client prior plan).state = some plan ∧
    plan.LabelMatchers = ms ∧
    ∀ d, (FederatedGraphResource.Read client plan).state = some d →
      d.LabelMatchers = ms := by
  have hok : ConvertAndValidateLabelMatchers ms = .ok ms :=
    convertAndValidate_of_valid ms hvalid
  have hval : ConvertAndValidateLabelMatchers plan.LabelMatchers = .ok ms := by
    rw [hms]; exact hok
  obtain ⟨ces⟩ := uresp
  cases hces
  have hupdRun : (FederatedGraphResource.Update client prior plan).calls =
        [.updateGraph (buildSecret plan) (buildApiGraph plan ms)] ∧
      (FederatedGraphResource.Update client prior plan).state = some plan := by
    constructor <;> simp [FederatedGraphResource.Update, hid, hval, hupd, updateFinish]
  have hreadRun : (FederatedGraphResource.Read client plan).state = some
      { plan with
        Id := .strV resp.Graph.Id
        Name := .strV resp.Graph.Name
        Namespace := .strV resp.Graph.Namespace
        RoutingURL := .strV resp.Graph.RoutingURL
        LabelMatchers := resp.Graph.LabelMatchers } := by
    simp [FederatedGraphResource.Read, hid, hget]
  refine ⟨hok, hupdRun.1, rfl, hupdRun.2, hms, fun d hd => ?_⟩
  rw [hreadRun] at hd
  cases hd
  exact hstored

theorem labelMatchers_update_read_roundtrip_witness :
    (∀ s ∈ ["team=payments", "env=prod"], isValidLabelMatcher s = true) ∧
    ConvertAndValidateLabelMatchers ["team=payments", "env=prod"] =
      .ok ["team=payments", "env=prod"] ∧
    (FederatedGraphResource.Update okClient (some sampleModel) sampleModel).state =
      some sampleModel :=
  have h := labelMatchers_update_read_roundtrip okClient (some sampleModel) sampleModel
    ["team=payments", "env=prod"] ⟨[]⟩ ⟨sampleRemoteGraph⟩ rfl (by decide) (by decide)
    (by rfl) rfl (by rfl) (by decide)
  ⟨by decide, h.1, h.2.2.2.1⟩

/-- Modelled from the spec: the classification of read outcomes by the
client adapter (spec 4.2 and the interface table in spec 6; internal/api
is not under src/) — a ReadGraph call yields success, a not-found signal
or a generic failure, never the subgraph-composition-failed signal. -/
def ReadNeverCompositionFailed (client : PlatformClient) : Prop :=
  ∀ name ns e, client.GetFederatedGraph name ns = .error e →
    IsSubgraphCompositionFailedError e = false

theorem createFetch_classified (client : PlatformClient)
    (hread : ReadNeverCompositionFailed client) (apiGraph : FederatedGraph)
    (diags : List Diagnostic) (calls : List RemoteCall) :
    ((createFetch client apiGraph diags calls).1.2 = none →
      (createFetch client apiGraph diags calls).1.1 ≠ none) ∧
    ∀ e, (createFetch client apiGraph diags calls).1.2 = some e →
      IsSubgraphCompositionFailedError e = false := by
  unfold createFetch
  cases hg : client.GetFederatedGraph apiGraph.Name apiGraph.Namespace with
  | error e =>
    refine ⟨fun h => by simp at h, fun e2 he => ?_⟩
    simp at he
    exact he ▸ hread _ _ _ hg
  | ok r => simp

theorem createFederatedGraph_classified (client : PlatformClient)
    (data : FederatedGraphResourceModel)
    (hread : ReadNeverCompositionFailed client) :
    ((createFederatedGraph client data).1.2 = none →
      (createFederatedGraph client data).1.1 ≠ none) ∧
    ∀ e, (createFederatedGraph client data).1.2 = some e →
      IsSubgraphCompositionFailedError e = false := by
  cases hv : ConvertAndValidateLabelMatchers data.LabelMatchers with
  | error e =>
    have heq : createFederatedGraph client data =
        ((none, some { ErrMsg := e, Reason := "CreateFederatedGraph", Status := .ERR }),
          [], []) := by
      simp [createFederatedGraph, hv]
    rw [heq]
    refine ⟨fun h => by simp at h, fun e2 he => ?_⟩
    simp only [Option.some.injEq] at he
    rw [← he]
    simp [IsSubgraphCompositionFailedError]
  | ok ms =>
    cases hcr : client.CreateFederatedGraph (buildSecret data) (buildApiGraph data ms) with
    | some apiError =>
      by_cases hcomp : IsSubgraphCompositionFailedError apiError = true
      · have heq : createFederatedGraph client data =
            createFetch client (buildApiGraph data ms)
              [.warning ErrCompositionError apiError.ErrMsg]
              [.createGraph (buildSecret data) (buildApiGraph data ms)] := by
          simp [createFederatedGraph, hv, hcr, hcomp]
        rw [heq]
        exact createFetch_classified client hread (buildApiGraph data ms) _ _
      · have heq : createFederatedGraph client data =
            ((none, some apiError), [],
              [.createGraph (buildSecret data) (buildApiGraph data ms)]) := by
          simp [createFederatedGraph, hv, hcr, hcomp]
        rw [heq]
        refine ⟨fun h => by simp at h, fun e2 he => ?_⟩
        simp only [Option.some.injEq] at he
        rw [← he]
        exact eq_false_of_ne_true hcomp
    | none =>
      have heq : createFederatedGraph client data =
          createFetch client (buildApiGraph data ms) []
            [.createGraph (buildSecret data) (buildApiGraph data ms)] := by
        simp [createFederatedGraph, hv, hcr]
      rw [heq]
      exact createFetch_classified client hread (buildApiGraph data ms) _ _

/-- C9: Create never dereferences a nil response — whenever the client
classifies read outcomes as the adapter does (never composition-failed on
read), no error returned by createFederatedGraph is classified as a
subgraph-composition-failed error, so the fall-through branch that reads
response.Graph is reached only with a present response. -/
theorem create_never_dereferences_nil_response (client : PlatformClient)
    (plan : FederatedGraphResourceModel)
    (hread : ReadNeverCompositionFailed client) :
    (FederatedGraphResource.Create client plan).panicked = false := by
  have h := createFederatedGraph_classified client plan hread
  unfold FederatedGraphResource.Create
  rcases hc : createFederatedGraph client plan with ⟨⟨resp, aerr⟩, diags, calls⟩
  rw [hc] at h
  cases aerr with
  | some e =>
    have hcomp := h.2 e rfl
    cases resp with
    | none => simp [hc, hcomp, createFinish]
    | some r => simp [hc, hcomp, createFinish]
  | none =>
    have hne := h.1 rfl
    cases resp with
    | none => exact absurd rfl hne
    | some r => simp [hc, createFinish]

theorem create_never_dereferences_nil_response_witness :
    (FederatedGraphResource.Create compositionFailedCreateClient emptyIdModel).panicked =
      false :=
  create_never_dereferences_nil_response compositionFailedCreateClient emptyIdModel
    fun _ _ _ h => nomatch h

/-- C8: whenever the RPC transport succeeds but the response message
envelope is nil, CreateToken returns the empty string together with a hard
failure and DeleteToken returns a hard failure, and both failure messages
contain the text "server response is nil". -/
theorem token_nil_envelope_hard_failure
    (crpc : CreateFederatedGraphTokenRequest →
      Except String (ConnectResponse CreateFederatedGraphTokenResponseMsg))
    (drpc : DeleteRouterTokenRequest →
      Except String (ConnectResponse DeleteRouterTokenResponseMsg))
    (name graphName ns tokenName : String)
    (hc : crpc (createTokenRequest name graphName ns) = .ok { Msg := none })
    (hd : drpc (deleteTokenRequest tokenName graphName ns) = .ok { Msg := none }) :
    CreateToken crpc name graphName ns =
      ("", some "failed to create token, the server response is nil") ∧
    DeleteToken drpc tokenName graphName ns =
      some "failed to delete token, the server response is nil" ∧
    (∃ pre post : String,
      pre ++ "server response is nil" ++ post =
        "failed to create token, the server response is nil") ∧
    ∃ pre post : String,
      pre ++ "server response is nil" ++ post =
        "failed to delete token, the server response is nil" := by
  refine ⟨?_, ?_, ⟨"failed to create token, the ", "", by decide⟩,
    ⟨"failed to delete token, the ", "", by decide⟩⟩
  · simp [CreateToken, hc]
  · simp [DeleteToken, hd]

theorem token_nil_envelope_hard_failure_witness :
    CreateToken (fun _ => .ok { Msg := none }) "tok" "orders" "default" =
      ("", some "failed to create token, the server response is nil") ∧
    DeleteToken (fun _ => .ok { Msg := none }) "tok" "orders" "default" =
      some "failed to delete token, the server response is nil" :=
  have h := token_nil_envelope_hard_failure (fun _ => .ok { Msg := none })
    (fun _ => .ok { Msg := none }) "tok" "orders" "default" "tok" (by rfl) (by rfl)
  ⟨h.1, h.2.1⟩

/-- C10: DeleteToken is independent of its graphName argument — for every
RPC oracle, token name and namespace, two calls that differ only in
graphName build the identical remote request, which carries only the token
name and the namespace, and produce identical results. -/
theorem deleteToken_independent_of_graphName
    (rpc : DeleteRouterTokenRequest →
      Except String (ConnectResponse DeleteRouterTokenResponseMsg))
    (tokenName g1 g2 ns : String) :
    deleteTokenRequest tokenName g1 ns = deleteTokenRequest tokenName g2 ns ∧
    (deleteTokenRequest tokenName g1 ns).TokenName = tokenName ∧
    (deleteTokenRequest tokenName g1 ns).Namespace = ns ∧
    DeleteToken rpc tokenName g1 ns = DeleteToken rpc tokenName g2 ns :=
  ⟨rfl, rfl, rfl, rfl⟩
